import Mathlib

/-!
Verification of the PyTado authentication and request-dispatch core
(`PyTado/http.py`) against its natural-language specification.

The Python code is shallowly embedded: every stateful method of the
`Http` class becomes an explicit state-passing function over `HttpState`;
the network is an oracle argument (`TransportResult` for single calls,
`Nat → SendOutcome` for the retry loop in `request`); raised Python
exceptions become `Except PyErr` results carrying the state at the point
of the raise (Python exceptions do not roll back mutations).  JSON
response bodies are modelled by the `Json` inductive; byte-level JSON
serialization of payloads is abstracted to the `Json` value itself, and
file persistence (`_save_token`) is a no-op because no claim observes the
file system.
-/

namespace PyTado

/-- JSON values, used for request payloads and decoded response bodies. -/
inductive Json where
  | null
  | bool (b : Bool)
  | num (n : Int)
  | str (s : String)
  | arr (elems : List Json)
  | obj (fields : List (String × Json))

/-- First-match association lookup in a JSON object field list
(Python dict keys are unique, so first match is the dict entry). -/
def lookupField : List (String × Json) → String → Option Json
  | [], _ => none
  | (k', v) :: rest, k => if k' = k then some v else lookupField rest k

/-- Python `d[k]` / `k in d` for a decoded JSON document: defined for
objects only, `none` on anything else or a missing key. -/
def Json.lookup (j : Json) (k : String) : Option Json :=
  match j with
  | .obj fields => lookupField fields k
  | _ => none

/-- Python `v == "<s>"` where `v` is a decoded JSON value: true exactly
when `v` is the string `s`. -/
def jsonEqStr (v : Json) (s : String) : Bool :=
  match v with
  | .str t => t == s
  | _ => false

/-- `Endpoint` enum from `PyTado/http.py`. -/
inductive Endpoint where
  | MY_API
  | HOPS_API
  | MOBILE
  | EIQ
  | TARIFF
  | GENIE
  | MINDER
deriving DecidableEq

/-- The StrEnum value of each `Endpoint` member. -/
def Endpoint.url : Endpoint → String
  | .MY_API => "https://my.tado.com/api/v2/"
  | .HOPS_API => "https://hops.tado.com/"
  | .MOBILE => "https://my.tado.com/mobile/1.9/"
  | .EIQ => "https://energy-insights.tado.com/api/"
  | .TARIFF => "https://tariff-experience.tado.com/api/"
  | .GENIE => "https://genie.tado.com/api/v2/"
  | .MINDER => "https://minder.tado.com/v1/"

/-- `Domain` enum from `PyTado/http.py`. -/
inductive Domain where
  | HOME
  | DEVICES
  | ME
  | HOME_BY_BRIDGE
deriving DecidableEq

/-- The StrEnum value of each `Domain` member. -/
def Domain.path : Domain → String
  | .HOME => "homes"
  | .DEVICES => "devices"
  | .ME => "me"
  | .HOME_BY_BRIDGE => "homeByBridge"

/-- `Action` enum from `PyTado/http.py`; logical verbs. -/
inductive Action where
  | GET
  | SET
  | RESET
  | CHANGE
deriving DecidableEq

/-- The StrEnum value of each `Action` member, which is the transport
verb actually sent for a legacy request. -/
def Action.toMethod : Action → String
  | .GET => "GET"
  | .SET => "POST"
  | .RESET => "DELETE"
  | .CHANGE => "PUT"

/-- `Mode` enum from `PyTado/http.py`. -/
inductive Mode where
  | OBJECT
  | PLAIN
deriving DecidableEq

/-- `DeviceActivationStatus` enum from `PyTado/http.py`. -/
inductive DeviceActivationStatus where
  | NOT_STARTED
  | PENDING
  | COMPLETED
deriving DecidableEq

/-- Position of a status along `NOT_STARTED → PENDING → COMPLETED`. -/
def DeviceActivationStatus.rank : DeviceActivationStatus → Nat
  | .NOT_STARTED => 0
  | .PENDING => 1
  | .COMPLETED => 2

/-- The source distinguishes the legacy container `TadoRequest` from the
subclass `TadoXRequest` only by the default endpoint and the overridden
`action` property; the tag records which class a descriptor belongs to. -/
inductive Dialect where
  | legacy
  | lineX
deriving DecidableEq

/-- `TadoRequest` / `TadoXRequest` data container (defaults as in the
Python constructors; `dialect` selects the class). -/
structure TadoRequest where
  dialect : Dialect := .legacy
  endpoint : Endpoint := .MY_API
  command : Option String := none
  action : Action := .GET
  payload : Option Json := none
  domain : Domain := .HOME
  device : Option String := none
  mode : Mode := .OBJECT
  params : Option (List (String × String)) := none

/-- The transport verb string obtained from the `action` property:
`TadoRequest.action` is the StrEnum value itself, while the
`TadoXRequest.action` property getter returns `"PATCH"` when the stored
action is `Action.CHANGE`. -/
def TadoRequest.actionMethod (r : TadoRequest) : String :=
  match r.dialect with
  | .legacy => r.action.toMethod
  | .lineX => if r.action = .CHANGE then "PATCH" else r.action.toMethod

/-- Python `f"{x}"` on an optional string: `None` renders as "None". -/
def pyStrOpt : Option String → String
  | none => "None"
  | some s => s

/-- Uppercase hexadecimal digit for a value below 16. -/
def hexDigit (n : Nat) : Char :=
  if n < 10 then Char.ofNat (48 + n) else Char.ofNat (55 + n)

/-- Percent-escape of one byte, as produced by `urllib.parse.quote`. -/
def percentEncodeByte (b : UInt8) : String :=
  "%" ++ String.mk [hexDigit (b.toNat / 16), hexDigit (b.toNat % 16)]

/-- `urllib.parse.quote_plus` on one character: ASCII alphanumerics and
`_.-~` are kept, a space becomes `+`, anything else is percent-escaped
byte by byte of its UTF-8 encoding. -/
def quotePlusChar (c : Char) : String :=
  if c = ' ' then "+"
  else if c.isAlphanum ∨ c = '_' ∨ c = '.' ∨ c = '-' ∨ c = '~' then String.singleton c
  else String.join (((String.singleton c).toUTF8.toList).map percentEncodeByte)

/-- `urllib.parse.quote_plus` on a string. -/
def quotePlus (s : String) : String :=
  String.join (s.toList.map quotePlusChar)

/-- `urllib.parse.urlencode` on a dict given as a key-value list (values
already rendered to strings, as `urlencode` does with `str`). -/
def urlencodePairs (ps : List (String × String)) : String :=
  String.intercalate "&" (ps.map fun kv => quotePlus kv.1 ++ "=" ++ quotePlus kv.2)

/-- Python exceptions that the embedded code can raise. -/
inductive PyErr where
  | tadoException (msg : String)
  | wrongCredentials (msg : String)
  | keyError (key : String)
  | typeError (msg : String)
  | valueError (msg : String)
deriving DecidableEq

/-- Parsed `response.json()` of the device-authorization endpoint
(`self._device_flow_data`). -/
structure DeviceFlowData where
  device_code : String
  user_code : String
  verification_uri : String
  expires_in : Int
  interval : Int
deriving DecidableEq

/-- Header dict of the session, insertion ordered. -/
abbrev Headers := List (String × String)

/-- Python `headers[k] = v`: replace the first binding of `k` in place,
or append a new one. -/
def setHeader : Headers → String → String → Headers
  | [], k, v => [(k, v)]
  | (k', v') :: rest, k, v =>
    if k' = k then (k, v) :: rest else (k', v') :: setHeader rest k v

/-- Python `headers.get(k)`. -/
def getHeader (hs : Headers) (k : String) : Option String :=
  match hs with
  | [] => none
  | (k', v) :: rest => if k' = k then some v else getHeader rest k

/-- State of one `Http` instance.  Time instants are integer seconds;
`sessionGen` counts how many times the underlying `requests.Session`
has been closed and recreated (session identity). -/
structure HttpState where
  _refresh_at : Int
  _headers : Headers
  _user_code : Option String
  _device_verification_url : Option String
  _device_activation_status : DeviceActivationStatus
  _expires_at : Option Int
  _id : Option Int
  _token_refresh : Option String
  _x_api : Option Bool
  _device_flow_data : Option DeviceFlowData
  sessionGen : Nat
deriving DecidableEq

/-- An HTTP response from the transport: status code, decoded JSON body
(`none` models an empty `response.text`), and `response.reason`. -/
structure HttpResponse where
  statusCode : Nat
  body : Option Json
  reason : String

/-- Outcome of one transport-level call (token endpoint, device
authorization endpoint): either a response or a raised
`requests.exceptions.ConnectionError` with message `m`. -/
inductive TransportResult where
  | resp (r : HttpResponse)
  | connError (m : String)

/-- Outcome of one `self._session.send(prepped)` attempt inside the
retry loop of `request`. -/
inductive SendOutcome where
  | ok (r : HttpResponse)
  | connError (m : String)
  | wrongCreds (m : String)

/-- `Http._configure_url`: the URL builder.  Raises `TypeError` when the
home id is still `None` but the branch formats it with `:d`. -/
def Http._configure_url (st : HttpState) (request : TadoRequest) : Except PyErr String :=
  let base : Except PyErr String :=
    if request.endpoint = .MOBILE then
      .ok (request.endpoint.url ++ pyStrOpt request.command)
    else if request.domain = .DEVICES ∨ request.domain = .HOME_BY_BRIDGE then
      .ok (request.endpoint.url ++ request.domain.path ++ "/" ++ pyStrOpt request.device
            ++ "/" ++ pyStrOpt request.command)
    else if request.domain = .ME then
      .ok (request.endpoint.url ++ request.domain.path)
    else
      match st._id with
      | none => .error (.typeError "unsupported format string passed to NoneType.__format__")
      | some i =>
        .ok (request.endpoint.url ++ request.domain.path ++ "/" ++ toString i
              ++ "/" ++ pyStrOpt request.command)
  match base with
  | .error e => .error e
  | .ok url =>
    match request.params with
    | none => .ok url
    | some ps => .ok (url ++ "?" ++ urlencodePairs ps)

/-- `Http._check_x_line_generation` applied to the decoded home metadata
document: `"generation" in home_ and home_["generation"] == "LINE_X"`. -/
def Http._check_x_line_generation (home_ : Json) : Bool :=
  match home_.lookup "generation" with
  | some v => jsonEqStr v "LINE_X"
  | none => false

/-- Fixed retry budget of the dispatcher (`_DEFAULT_RETRIES`). -/
def _DEFAULT_RETRIES : Nat := 5

/-- Parsed token-endpoint success body (`access_token`, `expires_in`,
`refresh_token`); `expires_in` is an integer number of seconds (the
source converts it with `float`, modelled over integers). -/
structure OAuthData where
  access_token : String
  expires_in : Int
  refresh_token : String
deriving DecidableEq

/-- Extraction of the three token fields from a decoded token-endpoint
body, `none` when a key is missing or has the wrong shape (a raised
`KeyError` in the source). -/
def parseOAuth (body : Json) : Option OAuthData :=
  match body.lookup "access_token", body.lookup "expires_in", body.lookup "refresh_token" with
  | some (.str a), some (.num e), some (.str r) => some ⟨a, e, r⟩
  | _, _, _ => none

/-- Extraction of the device-authorization response fields. -/
def parseDeviceFlow (body : Json) : Option DeviceFlowData :=
  match body.lookup "device_code", body.lookup "user_code", body.lookup "verification_uri",
        body.lookup "expires_in", body.lookup "interval" with
  | some (.str d), some (.str u), some (.str v), some (.num e), some (.num i) =>
    some ⟨d, u, v, e, i⟩
  | _, _, _, _, _ => none

/-- Close the current session and build a new one
(`self._session.close(); self._session = self._create_session()`). -/
def Http.recreateSession (st : HttpState) : HttpState :=
  { st with sessionGen := st.sessionGen + 1 }

/-- `Http._set_oauth_header`: store the refresh token, compute the next
refresh instant with the 30 second skew buffer, and set the bearer
header.  The trailing `_save_token` call only touches the file system
and is not modelled. -/
def Http._set_oauth_header (st : HttpState) (now : Int) (d : OAuthData) : HttpState :=
  { st with
      _token_refresh := some d.refresh_token
      _refresh_at := now + d.expires_in - 30
      _headers := setHeader st._headers "Authorization" ("Bearer " ++ d.access_token) }

/-- `Http._refresh_token`.  `transport` is the outcome of the POST to the
token endpoint (the request data, which uses `refresh_token or
self._token_refresh`, is absorbed into that oracle).  Returns the Python
return value together with the state at return or raise time. -/
def Http._refresh_token (st : HttpState) (now : Int) (refresh_token : Option String)
    (force_refresh : Bool) (transport : TransportResult) : Except PyErr Bool × HttpState :=
  if now ≤ st._refresh_at ∧ force_refresh = false then (.ok true, st)
  else
    let st1 := Http.recreateSession st
    match transport with
    | .connError m => (.error (.tadoException m), st1)
    | .resp r =>
      if r.statusCode ≠ 200 then
        if force_refresh then (.ok false, st1)
        else
          (.error (.wrongCredentials
            ("Failed to refresh token, probably wrong credentials. Status code: "
              ++ toString r.statusCode)), st1)
      else
        match r.body with
        | none => (.error (.valueError "response body is not valid JSON"), st1)
        | some b =>
          match parseOAuth b with
          | none => (.error (.keyError "token response field"), st1)
          | some d => (.ok true, Http._set_oauth_header st1 now d)

/-- `Http._configure_payload`: mutates the passed header dict (an alias
of `self._headers` at the call site in `request`) and returns the body;
`none` models the empty byte string sent when there is no payload, and a
present body is abstracted to the payload value instead of its JSON
byte encoding. -/
def Http._configure_payload (headers : Headers) (request : TadoRequest) :
    Headers × Option Json :=
  match request.payload with
  | none => (headers, none)
  | some p =>
    let h1 :=
      if request.mode = .PLAIN then setHeader headers "Content-Type" "text/plain;charset=UTF-8"
      else setHeader headers "Content-Type" "application/json;charset=UTF-8"
    (setHeader h1 "Mime-Type" "application/json;charset=UTF-8", some p)

/-- `response.text` empty yields `{}`, otherwise `response.json()`. -/
def Http.decodeBody (r : HttpResponse) : Json :=
  match r.body with
  | none => .obj []
  | some j => j

/-- The retry loop of `Http.request`: attempt `self._session.send`,
re-raise a credentials exception immediately, and on a connection error
either recreate the session and consume one retry or, with the budget
exhausted, raise `TadoException` wrapping the cause.  Returns the
response or error, the state, and the total number of send attempts. -/
def Http.sendLoop (send : Nat → SendOutcome) (st : HttpState) (retries attempts : Nat) :
    Except PyErr HttpResponse × HttpState × Nat :=
  match send attempts with
  | .ok r => (.ok r, st, attempts + 1)
  | .wrongCreds m => (.error (.wrongCredentials m), st, attempts + 1)
  | .connError m =>
    match retries with
    | 0 => (.error (.tadoException m), st, attempts + 1)
    | r + 1 => Http.sendLoop send (Http.recreateSession st) r (attempts + 1)

/-- The transport request prepared by `request` before the send loop
(headers are the dict value at prepare time). -/
structure PreparedRequest where
  method : String
  url : String
  headers : Headers
  data : Option Json

/-- Result of one `Http.request` call: decoded JSON or raised error, the
state afterwards, the number of send attempts, and the prepared request
(`none` when the call raised before preparing one). -/
structure RequestOutcome where
  result : Except PyErr Json
  state : HttpState
  attempts : Nat
  prepared : Option PreparedRequest

/-- `Http.request`: refresh the token, configure payload (mutating the
shared header dict through the `headers = self._headers` alias) and URL,
then run the retry loop and decode the response. -/
def Http.request (st : HttpState) (now : Int) (refreshTransport : TransportResult)
    (request : TadoRequest) (send : Nat → SendOutcome) : RequestOutcome :=
  match Http._refresh_token st now none false refreshTransport with
  | (.error e, st1) => ⟨.error e, st1, 0, none⟩
  | (.ok _, st1) =>
    let hd := Http._configure_payload st1._headers request
    let st2 := { st1 with _headers := hd.1 }
    match Http._configure_url st2 request with
    | .error e => ⟨.error e, st2, 0, none⟩
    | .ok url =>
      let prepped : PreparedRequest := ⟨request.actionMethod, url, hd.1, hd.2⟩
      match Http.sendLoop send st2 _DEFAULT_RETRIES 0 with
      | (.error e, st3, attempts) => ⟨.error e, st3, attempts, some prepped⟩
      | (.ok r, st3, attempts) => ⟨.ok (Http.decodeBody r), st3, attempts, some prepped⟩

/-- The expiry guard at the top of `_check_device_activation`:
`self._expires_at is not None and now > self._expires_at` (the source
compares POSIX timestamps of both instants). -/
def deviceCodeExpired (st : HttpState) (now : Int) : Bool :=
  match st._expires_at with
  | some e => now > e
  | none => false

/-- Result of one poll step: the Python return or raise with the state
afterwards, whether the token endpoint was actually called, and how many
seconds the step slept before polling (`none` when it raised first). -/
structure PollResult where
  result : Except PyErr Bool
  state : HttpState
  networkCalled : Bool
  sleptSeconds : Option Int

/-- `Http._check_device_activation`: one poll of the device-code grant.
Raises before any sleep or network call when the user code expired;
otherwise sleeps the advertised interval, POSTs the device code, and
classifies the response. -/
def Http._check_device_activation (st : HttpState) (now : Int) (transport : TransportResult) :
    PollResult :=
  if deviceCodeExpired st now then
    ⟨.error (.tadoException "User took too long to enter key"), st, false, none⟩
  else
    match st._device_flow_data with
    | none => ⟨.error (.typeError "_device_flow_data is not set"), st, false, none⟩
    | some dfd =>
      let slept := some dfd.interval
      match transport with
      | .connError m => ⟨.error (.tadoException m), st, true, slept⟩
      | .resp r =>
        if r.statusCode = 200 then
          match r.body with
          | none => ⟨.error (.valueError "response body is not valid JSON"), st, true, slept⟩
          | some b =>
            match parseOAuth b with
            | none => ⟨.error (.keyError "token response field"), st, true, slept⟩
            | some d => ⟨.ok true, Http._set_oauth_header st now d, true, slept⟩
        else if r.statusCode = 400 then
          match r.body with
          | none => ⟨.error (.valueError "response body is not valid JSON"), st, true, slept⟩
          | some b =>
            match b.lookup "error" with
            | none => ⟨.error (.keyError "error"), st, true, slept⟩
            | some v =>
              if jsonEqStr v "authorization_pending" then
                ⟨.ok false, st, true, slept⟩
              else
                ⟨.error (.tadoException ("Login failed. Reason: " ++ r.reason)), st, true, slept⟩
        else
          ⟨.error (.tadoException ("Login failed. Reason: " ++ r.reason)), st, true, slept⟩

/-- `Http._login_device_flow`: begin the device-authorization flow.
Guards against double start, POSTs to the authorization endpoint, and on
success stores the flow data, the user code, the verification URL with
the user code appended as a query parameter, and the code expiry. -/
def Http._login_device_flow (st : HttpState) (now : Int) (transport : TransportResult) :
    Except PyErr DeviceActivationStatus × HttpState :=
  if st._device_activation_status ≠ .NOT_STARTED then
    (.error (.tadoException "The device has been started already"), st)
  else
    match transport with
    | .connError m => (.error (.tadoException m), st)
    | .resp r =>
      if r.statusCode ≠ 200 then
        (.error (.tadoException
          ("Login failed. Status code: " ++ toString r.statusCode
            ++ " and reason: " ++ r.reason)), st)
      else
        match r.body with
        | none => (.error (.valueError "response body is not valid JSON"), st)
        | some b =>
          match parseDeviceFlow b with
          | none => (.error (.keyError "device flow field"), st)
          | some dfd =>
            let visitUrl := dfd.verification_uri ++ "?"
              ++ urlencodePairs [("user_code", dfd.user_code)]
            (.ok .PENDING,
              { st with
                  _device_flow_data := some dfd
                  _user_code := some dfd.user_code
                  _device_verification_url := some visitUrl
                  _expires_at := some (now + dfd.expires_in) })

/-- The single call site of `_login_device_flow` assigns its return value
to `self._device_activation_status` (constructor, line 196). -/
def Http.beginDeviceFlow (st : HttpState) (now : Int) (transport : TransportResult) :
    Except PyErr Unit × HttpState :=
  match Http._login_device_flow st now transport with
  | (.error e, st') => (.error e, st')
  | (.ok s, st') => (.ok (), { st' with _device_activation_status := s })

/-- `self.request(...)["homes"][0]["id"]` in `_get_id`. -/
def getFirstHomeId (me : Json) : Option Int :=
  match me.lookup "homes" with
  | some (.arr (h :: _)) =>
    match h.lookup "id" with
    | some (.num n) => some n
    | _ => none
  | _ => none

/-- `Http._device_ready`: the two post-activation follow-up requests are
abstracted to their outcomes (`meResult` for GET me, `homeResult` for the
home metadata fetched by `_check_x_line_generation`); their own header
and session side effects are not tracked.  On success the home id and
generation flag are stored, the ephemeral device-flow fields cleared,
and the status set to `COMPLETED`. -/
def Http._device_ready (st : HttpState) (meResult homeResult : Except PyErr Json) :
    Except PyErr Unit × HttpState :=
  match meResult with
  | .error e => (.error e, st)
  | .ok me =>
    match getFirstHomeId me with
    | none => (.error (.keyError "homes"), st)
    | some hid =>
      let st1 := { st with _id := some hid }
      match homeResult with
      | .error e => (.error e, st1)
      | .ok home =>
        (.ok (),
          { st1 with
              _x_api := some (Http._check_x_line_generation home)
              _user_code := none
              _device_verification_url := none
              _device_activation_status := .COMPLETED })

/-- Outcome of `device_activation`: finished, raised, or the poll oracle
ran out before the loop ended (the Python loop would still be polling). -/
inductive ActRes where
  | done (st : HttpState)
  | err (e : PyErr) (st : HttpState)
  | fuelOut (st : HttpState)

/-- The state carried by a `device_activation` outcome. -/
def ActRes.state : ActRes → HttpState
  | .done st => st
  | .err _ st => st
  | .fuelOut st => st

/-- The `while True` loop of `device_activation`; each list entry is the
wall-clock instant and transport outcome of one poll. -/
def Http.deviceActivationLoop (st : HttpState) : List (Int × TransportResult) → ActRes
  | [] => .fuelOut st
  | (now, tr) :: rest =>
    let pr := Http._check_device_activation st now tr
    match pr.result with
    | .error e => .err e pr.state
    | .ok true => .done pr.state
    | .ok false => Http.deviceActivationLoop pr.state rest

/-- `Http.device_activation`: poll until activated, then run
`_device_ready`. -/
def Http.device_activation (st : HttpState) (polls : List (Int × TransportResult))
    (meResult homeResult : Except PyErr Json) : ActRes :=
  if st._device_activation_status = .NOT_STARTED then
    .err (.tadoException "The device flow has not yet started") st
  else
    match Http.deviceActivationLoop st polls with
    | .done st' =>
      match Http._device_ready st' meResult homeResult with
      | (.ok _, st'') => .done st''
      | (.error e, st'') => .err e st''
    | .err e st' => .err e st'
    | .fuelOut st' => .fuelOut st'

/-- The field initialisation at the top of `Http.__init__` (refresh_at
starts ten minutes in the future; the header dict holds the Referer). -/
def Http.initialState (now : Int) : HttpState :=
  { _refresh_at := now + 600
    _headers := [("Referer", "https://app.tado.com/")]
    _user_code := none
    _device_verification_url := none
    _device_activation_status := .NOT_STARTED
    _expires_at := none
    _id := none
    _token_refresh := none
    _x_api := none
    _device_flow_data := none
    sessionGen := 0 }

/-- Python truthiness of the `saved_refresh_token` argument (an empty
string is falsy). -/
def savedTokenTruthy : Option String → Bool
  | none => false
  | some s => s ≠ ""

/-- The bootstrap branch of `Http.__init__`.  `tokenFile` is the decoded
content of the token file (`none` when no path is configured or the file
does not exist, making `_load_token` return `False`); the transports and
follow-up results are oracles for the network calls the constructor can
make.  When a token is available the constructor runs a forced refresh
and, only on success, `_device_ready`; otherwise it starts the device
flow. -/
def Http.init (now : Int) (saved_refresh_token : Option String) (tokenFile : Option Json)
    (refreshTransport : TransportResult) (flowTransport : TransportResult)
    (meResult homeResult : Except PyErr Json) : Except PyErr Unit × HttpState :=
  let st0 := Http.initialState now
  let loaded : Bool × HttpState :=
    if savedTokenTruthy saved_refresh_token then (true, st0)
    else
      match tokenFile with
      | none => (false, st0)
      | some data =>
        (true, { st0 with
          _token_refresh :=
            match data.lookup "refresh_token" with
            | some (.str s) => some s
            | _ => none })
  if loaded.1 then
    match Http._refresh_token loaded.2 now saved_refresh_token true refreshTransport with
    | (.error e, st2) => (.error e, st2)
    | (.ok true, st2) => Http._device_ready st2 meResult homeResult
    | (.ok false, st2) => (.ok (), st2)
  else
    Http.beginDeviceFlow loaded.2 now flowTransport

/-- Characters of `sub` occur at the start of `l`. -/
def listStartsWith : List Char → List Char → Bool
  | _, [] => true
  | [], _ :: _ => false
  | a :: as, b :: bs => a = b && listStartsWith as bs

/-- Characters of `sub` occur contiguously somewhere in `l`. -/
def listHasSub (l sub : List Char) : Bool :=
  match l with
  | [] => listStartsWith [] sub
  | _ :: rest => listStartsWith l sub || listHasSub rest sub

/-- `sub in s` for strings. -/
def strContainsSub (s sub : String) : Bool :=
  listHasSub s.toList sub.toList

/-- The URL construction exactly as the specification words it: a pure
function of the request descriptor and the session home id. -/
def urlBuilderSpec (homeId : Int) (request : TadoRequest) : String :=
  let base :=
    if request.endpoint = .MOBILE then
      request.endpoint.url ++ pyStrOpt request.command
    else if request.domain = .DEVICES ∨ request.domain = .HOME_BY_BRIDGE then
      request.endpoint.url ++ request.domain.path ++ "/" ++ pyStrOpt request.device
        ++ "/" ++ pyStrOpt request.command
    else if request.domain = .ME then
      request.endpoint.url ++ request.domain.path
    else
      request.endpoint.url ++ request.domain.path ++ "/" ++ toString homeId
        ++ "/" ++ pyStrOpt request.command
  match request.params with
  | none => base
  | some ps => base ++ "?" ++ urlencodePairs ps


/-- A header assignment to a different record field leaves the URL
builder unchanged (it reads only the endpoint, domain, device, command,
params and the stored home id). -/
theorem configure_url_headers_irrelevant (st : HttpState) (hs : Headers) (req : TadoRequest) :
    Http._configure_url { st with _headers := hs } req = Http._configure_url st req := rfl

/-- Claim C7: the URL builder is a pure function of the request
descriptor and the session home id, following exactly the four-way case
split of the specification, with query parameters appended as
`? ++ urlencode(params)`; in particular the three concrete examples of
the specification hold. -/
theorem claim_C7 :
    (∀ (st : HttpState) (req : TadoRequest) (homeId : Int),
      st._id = some homeId →
      Http._configure_url st req = .ok (urlBuilderSpec homeId req)) ∧
    (∀ (st : HttpState),
      Http._configure_url st
          { domain := .DEVICES, device := some "abc123", command := some "temperatureOffset" }
        = .ok "https://my.tado.com/api/v2/devices/abc123/temperatureOffset") ∧
    (∀ (st : HttpState) (c : Option String),
      Http._configure_url st { domain := .ME, command := c }
        = .ok "https://my.tado.com/api/v2/me") ∧
    (∀ (st : HttpState), st._id = some 1234 →
      Http._configure_url st { domain := .HOME, command := some "zones" }
        = .ok "https://my.tado.com/api/v2/homes/1234/zones") := by
  refine ⟨?_, ?_, ?_, ?_⟩
  · intro st req homeId h
    rcases req with ⟨dia, ep, cmd, act, pl, dom, dev, mode, ps⟩
    cases ep <;> cases dom <;> cases ps <;>
      simp [Http._configure_url, urlBuilderSpec, h]
  · intro st
    simp [Http._configure_url]
    rfl
  · intro st c
    simp [Http._configure_url]
    rfl
  · intro st h
    simp [Http._configure_url, h]
    rfl

/-- Witness for claim C7 at concrete inputs. -/
theorem claim_C7_witness :
    Http._configure_url { Http.initialState 0 with _id := some 1234 }
        { domain := .HOME, command := some "zones" }
      = .ok (urlBuilderSpec 1234 { domain := .HOME, command := some "zones" }) ∧
    Http._configure_url { Http.initialState 0 with _id := some 1234 }
        { domain := .HOME, command := some "zones" }
      = .ok "https://my.tado.com/api/v2/homes/1234/zones" :=
  ⟨claim_C7.1 { Http.initialState 0 with _id := some 1234 }
      { domain := .HOME, command := some "zones" } 1234 rfl,
   claim_C7.2.2.2 { Http.initialState 0 with _id := some 1234 } rfl⟩

/-- Claim C8: the legacy descriptor translates the logical verbs as
GET→GET, SET→POST, RESET→DELETE, CHANGE→PUT, and the new-generation
descriptor translates CHANGE→PATCH and every other verb identically to
the legacy one. -/
theorem claim_C8 :
    (∀ (r : TadoRequest), r.dialect = .legacy →
      r.actionMethod =
        match r.action with
        | .GET => "GET"
        | .SET => "POST"
        | .RESET => "DELETE"
        | .CHANGE => "PUT") ∧
    (∀ (r : TadoRequest), r.dialect = .lineX → r.action = .CHANGE →
      r.actionMethod = "PATCH") ∧
    (∀ (r : TadoRequest), r.dialect = .lineX → r.action ≠ .CHANGE →
      r.actionMethod = TadoRequest.actionMethod { r with dialect := .legacy }) := by
  refine ⟨?_, ?_, ?_⟩
  · intro r h
    cases ha : r.action <;> simp [TadoRequest.actionMethod, h, ha, Action.toMethod]
  · intro r h ha
    simp [TadoRequest.actionMethod, h, ha]
  · intro r h ha
    cases hb : r.action <;> simp [TadoRequest.actionMethod, h, hb] <;>
      simp [hb] at ha

/-- Witness for claim C8 at concrete inputs. -/
theorem claim_C8_witness :
    TadoRequest.actionMethod { dialect := .legacy, action := .CHANGE } = "PUT" ∧
    TadoRequest.actionMethod { dialect := .lineX, action := .CHANGE } = "PATCH" ∧
    TadoRequest.actionMethod { dialect := .lineX, action := .SET }
      = TadoRequest.actionMethod { dialect := .legacy, action := .SET } :=
  ⟨claim_C8.1 { dialect := .legacy, action := .CHANGE } rfl,
   claim_C8.2.1 { dialect := .lineX, action := .CHANGE } rfl rfl,
   claim_C8.2.2 { dialect := .lineX, action := .SET } rfl (by simp)⟩

/-- Claim C9: the generation detector reports a new-generation home if
and only if the home metadata has a `generation` field that is exactly
the string LINE_X; the three concrete examples of the specification. -/
theorem claim_C9 :
    (∀ (home_ : Json),
      Http._check_x_line_generation home_ = true ↔
        home_.lookup "generation" = some (.str "LINE_X")) ∧
    Http._check_x_line_generation (.obj [("generation", .str "LINE_X")]) = true ∧
    Http._check_x_line_generation (.obj []) = false ∧
    Http._check_x_line_generation (.obj [("generation", .str "LINE_X2")]) = false := by
  refine ⟨?_, rfl, rfl, rfl⟩
  intro home_
  unfold Http._check_x_line_generation
  cases h : home_.lookup "generation" with
  | none => simp
  | some v => cases v <;> simp [jsonEqStr]

/-- Claim C2: after every successful token refresh (a 200 response whose
body carries the three token fields) the stored refresh instant equals
the refresh-time clock plus `expires_in` minus the 30 second skew
buffer, hence is strictly earlier than the real token expiry. -/
theorem claim_C2 :
    ∀ (st : HttpState) (now : Int) (rt : Option String) (force : Bool)
      (r : HttpResponse) (b : Json) (d : OAuthData),
      (force = true ∨ st._refresh_at < now) →
      r.statusCode = 200 →
      r.body = some b →
      parseOAuth b = some d →
      (Http._refresh_token st now rt force (.resp r)).1 = .ok true ∧
      (Http._refresh_token st now rt force (.resp r)).2._refresh_at
        = now + d.expires_in - 30 ∧
      (Http._refresh_token st now rt force (.resp r)).2._refresh_at
        < now + d.expires_in := by
  intro st now rt force r b d hfresh h200 hbody hparse
  have hcond : ¬ (now ≤ st._refresh_at ∧ force = false) := by
    rcases hfresh with h | h
    · rintro ⟨-, hf⟩
      rw [h] at hf
      cases hf
    · rintro ⟨h1, -⟩
      omega
  unfold Http._refresh_token
  rw [if_neg hcond]
  simp [h200, hbody, hparse, Http._set_oauth_header]

/-- Witness for claim C2 at a concrete refresh. -/
theorem claim_C2_witness :
    (Http._refresh_token (Http.initialState 0) 0 (some "tok") true
        (.resp ⟨200, some (.obj [("access_token", .str "at"), ("expires_in", .num 600),
          ("refresh_token", .str "rt2")]), "OK"⟩)).1 = .ok true ∧
    (Http._refresh_token (Http.initialState 0) 0 (some "tok") true
        (.resp ⟨200, some (.obj [("access_token", .str "at"), ("expires_in", .num 600),
          ("refresh_token", .str "rt2")]), "OK"⟩)).2._refresh_at = 0 + 600 - 30 ∧
    (Http._refresh_token (Http.initialState 0) 0 (some "tok") true
        (.resp ⟨200, some (.obj [("access_token", .str "at"), ("expires_in", .num 600),
          ("refresh_token", .str "rt2")]), "OK"⟩)).2._refresh_at < 0 + 600 :=
  claim_C2 (Http.initialState 0) 0 (some "tok") true
    ⟨200, some (.obj [("access_token", .str "at"), ("expires_in", .num 600),
      ("refresh_token", .str "rt2")]), "OK"⟩
    (.obj [("access_token", .str "at"), ("expires_in", .num 600),
      ("refresh_token", .str "rt2")])
    ⟨"at", 600, "rt2"⟩ (Or.inl rfl) rfl rfl rfl

/-- Claim C3: a non-200 token-endpoint response makes the refresh return
failure without raising when forced, and raise `WrongCredentialsError`
when not forced; a connection error during the refresh call raises a
generic `TadoException` regardless of `force`. -/
theorem claim_C3 :
    (∀ (st : HttpState) (now : Int) (rt : Option String) (force : Bool) (m : String),
      (force = true ∨ st._refresh_at < now) →
      Http._refresh_token st now rt force (.connError m)
        = (.error (.tadoException m), Http.recreateSession st)) ∧
    (∀ (st : HttpState) (now : Int) (rt : Option String) (r : HttpResponse),
      r.statusCode ≠ 200 →
      Http._refresh_token st now rt true (.resp r)
        = (.ok false, Http.recreateSession st)) ∧
    (∀ (st : HttpState) (now : Int) (rt : Option String) (r : HttpResponse),
      st._refresh_at < now →
      r.statusCode ≠ 200 →
      Http._refresh_token st now rt false (.resp r)
        = (.error (.wrongCredentials
            ("Failed to refresh token, probably wrong credentials. Status code: "
              ++ toString r.statusCode)), Http.recreateSession st)) := by
  refine ⟨?_, ?_, ?_⟩
  · intro st now rt force m hfresh
    have hcond : ¬ (now ≤ st._refresh_at ∧ force = false) := by
      rcases hfresh with h | h
      · rintro ⟨-, hf⟩
        rw [h] at hf
        cases hf
      · rintro ⟨h1, -⟩
        omega
    unfold Http._refresh_token
    rw [if_neg hcond]
  · intro st now rt r h200
    have hcond : ¬ (now ≤ st._refresh_at ∧ (true : Bool) = false) := by
      rintro ⟨-, hf⟩
      cases hf
    unfold Http._refresh_token
    rw [if_neg hcond]
    simp [h200]
  · intro st now rt r hlate h200
    have hcond : ¬ (now ≤ st._refresh_at ∧ (false : Bool) = false) := by
      rintro ⟨h1, -⟩
      omega
    unfold Http._refresh_token
    rw [if_neg hcond]
    simp [h200]

/-- Witness for claim C3 at concrete refreshes. -/
theorem claim_C3_witness :
    Http._refresh_token (Http.initialState 0) 0 none true (.connError "boom")
      = (.error (.tadoException "boom"), Http.recreateSession (Http.initialState 0)) ∧
    Http._refresh_token (Http.initialState 0) 0 none true
        (.resp ⟨401, some (.obj []), "Unauthorized"⟩)
      = (.ok false, Http.recreateSession (Http.initialState 0)) ∧
    Http._refresh_token (Http.initialState 0) 700 none false
        (.resp ⟨401, some (.obj []), "Unauthorized"⟩)
      = (.error (.wrongCredentials
          ("Failed to refresh token, probably wrong credentials. Status code: "
            ++ toString 401)), Http.recreateSession (Http.initialState 0)) :=
  ⟨claim_C3.1 (Http.initialState 0) 0 none true "boom" (Or.inl rfl),
   claim_C3.2.1 (Http.initialState 0) 0 none ⟨401, some (.obj []), "Unauthorized"⟩ (by decide),
   claim_C3.2.2 (Http.initialState 0) 700 none ⟨401, some (.obj []), "Unauthorized"⟩
     (by norm_num [Http.initialState]) (by decide)⟩

/-- One successful send ends the loop with the response. -/
theorem sendLoop_ok (send : Nat → SendOutcome) (st : HttpState) (retries attempts : Nat)
    (r : HttpResponse) (h : send attempts = .ok r) :
    Http.sendLoop send st retries attempts = (.ok r, st, attempts + 1) := by
  rw [Http.sendLoop.eq_def, h]

/-- A connection error with retries remaining recreates the session and
consumes one retry. -/
theorem sendLoop_conn_retry (send : Nat → SendOutcome) (st : HttpState) (k attempts : Nat)
    (m : String) (h : send attempts = .connError m) :
    Http.sendLoop send st (k + 1) attempts
      = Http.sendLoop send (Http.recreateSession st) k (attempts + 1) := by
  rw [Http.sendLoop.eq_def, h]

/-- A connection error with the budget exhausted raises the wrapped
transport error. -/
theorem sendLoop_conn_exhausted (send : Nat → SendOutcome) (st : HttpState) (attempts : Nat)
    (m : String) (h : send attempts = .connError m) :
    Http.sendLoop send st 0 attempts = (.error (.tadoException m), st, attempts + 1) := by
  rw [Http.sendLoop.eq_def, h]

/-- The send loop never touches the header dict. -/
theorem sendLoop_headers (send : Nat → SendOutcome) (st : HttpState) (retries attempts : Nat) :
    (Http.sendLoop send st retries attempts).2.1._headers = st._headers := by
  induction retries generalizing st attempts with
  | zero =>
    rw [Http.sendLoop.eq_def]
    cases send attempts <;> rfl
  | succ k ih =>
    rw [Http.sendLoop.eq_def]
    cases send attempts <;> simp [Http.recreateSession, ih]

/-- The send loop never touches the activation status. -/
theorem sendLoop_status (send : Nat → SendOutcome) (st : HttpState) (retries attempts : Nat) :
    (Http.sendLoop send st retries attempts).2.1._device_activation_status
      = st._device_activation_status := by
  induction retries generalizing st attempts with
  | zero =>
    rw [Http.sendLoop.eq_def]
    cases send attempts <;> rfl
  | succ k ih =>
    rw [Http.sendLoop.eq_def]
    cases send attempts <;> simp [Http.recreateSession, ih]

/-- A still-valid token makes the non-forced refresh at the top of
`request` a no-op. -/
theorem refresh_noop (st : HttpState) (now : Int) (rtr : TransportResult)
    (h : now ≤ st._refresh_at) :
    Http._refresh_token st now none false rtr = (.ok true, st) := by
  unfold Http._refresh_token
  rw [if_pos ⟨h, rfl⟩]

/-- Claim C1: in `request`, each transient connection error with retries
remaining out of the budget of 5 recreates the session and consumes one
retry.  With 2 failures then success the call returns the decoded
payload with the session recreated exactly twice; with 6 consecutive
failures it raises `TadoException` after 5 retries (6 send attempts) and
never raises `WrongCredentialsError`. -/
theorem claim_C1 :
    (∀ (st : HttpState) (now : Int) (rtr : TransportResult) (req : TadoRequest)
       (send : Nat → SendOutcome) (r : HttpResponse) (m0 m1 u : String),
      now ≤ st._refresh_at →
      Http._configure_url st req = .ok u →
      send 0 = .connError m0 →
      send 1 = .connError m1 →
      send 2 = .ok r →
      (Http.request st now rtr req send).result = .ok (Http.decodeBody r) ∧
      (Http.request st now rtr req send).state.sessionGen = st.sessionGen + 2 ∧
      (Http.request st now rtr req send).attempts = 3) ∧
    (∀ (st : HttpState) (now : Int) (rtr : TransportResult) (req : TadoRequest)
       (send : Nat → SendOutcome) (m : Nat → String) (u : String),
      now ≤ st._refresh_at →
      Http._configure_url st req = .ok u →
      (∀ i, i < 6 → send i = .connError (m i)) →
      (Http.request st now rtr req send).result = .error (.tadoException (m 5)) ∧
      (Http.request st now rtr req send).attempts = 6 ∧
      (Http.request st now rtr req send).state.sessionGen = st.sessionGen + 5 ∧
      ∀ msg, (Http.request st now rtr req send).result ≠ .error (.wrongCredentials msg)) := by
  constructor
  · intro st now rtr req send r m0 m1 u h0 hurl h1 h2 h3
    have hr : Http._refresh_token st now none false rtr = (.ok true, st) :=
      refresh_noop st now rtr h0
    have hu2 : Http._configure_url
        { st with _headers := (Http._configure_payload st._headers req).1 } req = .ok u := by
      rw [configure_url_headers_irrelevant]
      exact hurl
    have hloop : Http.sendLoop send
        { st with _headers := (Http._configure_payload st._headers req).1 } 5 0
        = (.ok r, Http.recreateSession (Http.recreateSession
            { st with _headers := (Http._configure_payload st._headers req).1 }), 3) := by
      rw [sendLoop_conn_retry send _ 4 0 m0 h1, sendLoop_conn_retry send _ 3 1 m1 h2,
        sendLoop_ok send _ 3 2 r h3]
    unfold Http.request
    rw [hr]
    simp only [hu2, _DEFAULT_RETRIES, hloop, Http.recreateSession]
    exact ⟨trivial, trivial, trivial⟩
  · intro st now rtr req send m u h0 hurl hs
    have hr : Http._refresh_token st now none false rtr = (.ok true, st) :=
      refresh_noop st now rtr h0
    have hu2 : Http._configure_url
        { st with _headers := (Http._configure_payload st._headers req).1 } req = .ok u := by
      rw [configure_url_headers_irrelevant]
      exact hurl
    have hloop : Http.sendLoop send
        { st with _headers := (Http._configure_payload st._headers req).1 } 5 0
        = (.error (.tadoException (m 5)),
            Http.recreateSession (Http.recreateSession (Http.recreateSession
              (Http.recreateSession (Http.recreateSession
                { st with _headers := (Http._configure_payload st._headers req).1 })))), 6) := by
      rw [sendLoop_conn_retry send _ 4 0 (m 0) (hs 0 (by omega)),
        sendLoop_conn_retry send _ 3 1 (m 1) (hs 1 (by omega)),
        sendLoop_conn_retry send _ 2 2 (m 2) (hs 2 (by omega)),
        sendLoop_conn_retry send _ 1 3 (m 3) (hs 3 (by omega)),
        sendLoop_conn_retry send _ 0 4 (m 4) (hs 4 (by omega)),
        sendLoop_conn_exhausted send _ 5 (m 5) (hs 5 (by omega))]
    unfold Http.request
    rw [hr]
    simp only [hu2, _DEFAULT_RETRIES, hloop, Http.recreateSession]
    refine ⟨trivial, trivial, trivial, ?_⟩
    intro msg
    simp

/-- Witness for claim C1: two failures then success, and six failures,
against a fresh client state and the ME endpoint. -/
theorem claim_C1_witness :
    ((Http.request (Http.initialState 0) 0 (.resp ⟨200, none, "OK"⟩) { domain := .ME }
        (fun i => if i < 2 then .connError "boom" else .ok ⟨200, some (.obj [("x", .num 1)]), "OK"⟩)).result
      = .ok (Http.decodeBody ⟨200, some (.obj [("x", .num 1)]), "OK"⟩) ∧
     (Http.request (Http.initialState 0) 0 (.resp ⟨200, none, "OK"⟩) { domain := .ME }
        (fun i => if i < 2 then .connError "boom" else .ok ⟨200, some (.obj [("x", .num 1)]), "OK"⟩)).state.sessionGen
      = (Http.initialState 0).sessionGen + 2 ∧
     (Http.request (Http.initialState 0) 0 (.resp ⟨200, none, "OK"⟩) { domain := .ME }
        (fun i => if i < 2 then .connError "boom" else .ok ⟨200, some (.obj [("x", .num 1)]), "OK"⟩)).attempts
      = 3) ∧
    ((Http.request (Http.initialState 0) 0 (.resp ⟨200, none, "OK"⟩) { domain := .ME }
        (fun _ => .connError "down")).result = .error (.tadoException "down") ∧
     (Http.request (Http.initialState 0) 0 (.resp ⟨200, none, "OK"⟩) { domain := .ME }
        (fun _ => .connError "down")).attempts = 6 ∧
     (Http.request (Http.initialState 0) 0 (.resp ⟨200, none, "OK"⟩) { domain := .ME }
        (fun _ => .connError "down")).state.sessionGen = (Http.initialState 0).sessionGen + 5 ∧
     ∀ msg, (Http.request (Http.initialState 0) 0 (.resp ⟨200, none, "OK"⟩) { domain := .ME }
        (fun _ => .connError "down")).result ≠ .error (.wrongCredentials msg)) :=
  ⟨claim_C1.1 (Http.initialState 0) 0 (.resp ⟨200, none, "OK"⟩) { domain := .ME }
      (fun i => if i < 2 then .connError "boom" else .ok ⟨200, some (.obj [("x", .num 1)]), "OK"⟩)
      ⟨200, some (.obj [("x", .num 1)]), "OK"⟩ "boom" "boom" "https://my.tado.com/api/v2/me"
      (by decide) rfl rfl rfl rfl,
   claim_C1.2 (Http.initialState 0) 0 (.resp ⟨200, none, "OK"⟩) { domain := .ME }
      (fun _ => .connError "down") (fun _ => "down") "https://my.tado.com/api/v2/me"
      (by decide) rfl (fun _ _ => rfl)⟩

/-- Writing a key into a header dict makes it readable back. -/
theorem getHeader_setHeader_same (hs : Headers) (k v : String) :
    getHeader (setHeader hs k v) k = some v := by
  induction hs with
  | nil => simp [setHeader, getHeader]
  | cons kv rest ih =>
    by_cases h : kv.1 = k
    · simp [setHeader, getHeader, h]
    · simp only [setHeader]
      rw [if_neg h]
      simp only [getHeader]
      rw [if_neg h]
      exact ih

/-- Writing a key into a header dict leaves other keys unchanged. -/
theorem getHeader_setHeader_other (hs : Headers) (k v k' : String) (h : k ≠ k') :
    getHeader (setHeader hs k v) k' = getHeader hs k' := by
  induction hs with
  | nil => simp [setHeader, getHeader, h]
  | cons kv rest ih =>
    by_cases hk : kv.1 = k
    · simp [setHeader, getHeader, hk, h]
    · simp only [setHeader]
      rw [if_neg hk]
      simp only [getHeader]
      by_cases hk' : kv.1 = k'
      · rw [if_pos hk', if_pos hk']
      · rw [if_neg hk', if_neg hk']
        exact ih

/-- With a still-valid token, the header dict stored in the state after a
`request` call is exactly the one `_configure_payload` produced from the
previous headers, whatever the transport did. -/
theorem request_state_headers (st : HttpState) (now : Int) (rtr : TransportResult)
    (req : TadoRequest) (send : Nat → SendOutcome) (h0 : now ≤ st._refresh_at) :
    (Http.request st now rtr req send).state._headers
      = (Http._configure_payload st._headers req).1 := by
  unfold Http.request
  rw [refresh_noop st now rtr h0]
  simp only
  cases hu : Http._configure_url
      { st with _headers := (Http._configure_payload st._headers req).1 } req with
  | error e => simp [hu]
  | ok u =>
    simp only [hu]
    rcases hl : Http.sendLoop send
        { st with _headers := (Http._configure_payload st._headers req).1 }
        _DEFAULT_RETRIES 0 with ⟨res, st3, attempts⟩
    have hh := sendLoop_headers send
        { st with _headers := (Http._configure_payload st._headers req).1 }
        _DEFAULT_RETRIES 0
    rw [hl] at hh
    simp only at hh
    cases res <;> simp [hl, hh]

/-- With a still-valid token, the headers of the prepared transport
request are the ones `_configure_payload` produced. -/
theorem request_prepared_headers (st : HttpState) (now : Int) (rtr : TransportResult)
    (req : TadoRequest) (send : Nat → SendOutcome) (pr : PreparedRequest)
    (h0 : now ≤ st._refresh_at)
    (h : (Http.request st now rtr req send).prepared = some pr) :
    pr.headers = (Http._configure_payload st._headers req).1 := by
  unfold Http.request at h
  rw [refresh_noop st now rtr h0] at h
  simp only at h
  cases hu : Http._configure_url
      { st with _headers := (Http._configure_payload st._headers req).1 } req with
  | error e => simp [hu] at h
  | ok u =>
    simp only [hu] at h
    rcases hl : Http.sendLoop send
        { st with _headers := (Http._configure_payload st._headers req).1 }
        _DEFAULT_RETRIES 0 with ⟨res, st3, attempts⟩
    rw [hl] at h
    cases res <;> simp at h <;> rw [← h]

/-- The send loop never touches the refresh instant. -/
theorem sendLoop_refresh_at (send : Nat → SendOutcome) (st : HttpState)
    (retries attempts : Nat) :
    (Http.sendLoop send st retries attempts).2.1._refresh_at = st._refresh_at := by
  induction retries generalizing st attempts with
  | zero =>
    rw [Http.sendLoop.eq_def]
    cases send attempts <;> rfl
  | succ k ih =>
    rw [Http.sendLoop.eq_def]
    cases send attempts <;> simp [Http.recreateSession, ih]

/-- A request leaves the refresh instant unchanged when the token was
still valid at its start (needed to chain two calls). -/
theorem request_refresh_at (st : HttpState) (now : Int) (rtr : TransportResult)
    (req : TadoRequest) (send : Nat → SendOutcome) (h0 : now ≤ st._refresh_at) :
    (Http.request st now rtr req send).state._refresh_at = st._refresh_at := by
  unfold Http.request
  rw [refresh_noop st now rtr h0]
  simp only
  cases hu : Http._configure_url
      { st with _headers := (Http._configure_payload st._headers req).1 } req with
  | error e => simp [hu]
  | ok u =>
    simp only [hu]
    rcases hl : Http.sendLoop send
        { st with _headers := (Http._configure_payload st._headers req).1 }
        _DEFAULT_RETRIES 0 with ⟨res, st3, attempts⟩
    have hh := sendLoop_refresh_at send
        { st with _headers := (Http._configure_payload st._headers req).1 }
        _DEFAULT_RETRIES 0
    rw [hl] at hh
    simp only at hh
    cases res <;> simp [hl, hh]

/-- Claim C10: `request` aliases the shared header dict when configuring
the payload, so the Content-Type and Mime-Type written for a call with a
payload end up in the session-wide headers and are also sent by every
later call of the same client, including payload-less ones. -/
theorem claim_C10 :
    ∀ (st : HttpState) (now now2 : Int) (rtr rtr2 : TransportResult)
      (req1 req2 : TadoRequest) (send1 send2 : Nat → SendOutcome) (p : Json),
      now ≤ st._refresh_at →
      req1.payload = some p →
      req2.payload = none →
      now2 ≤ (Http.request st now rtr req1 send1).state._refresh_at →
      getHeader (Http.request st now rtr req1 send1).state._headers "Content-Type"
        = some (if req1.mode = .PLAIN then "text/plain;charset=UTF-8"
                else "application/json;charset=UTF-8") ∧
      getHeader (Http.request st now rtr req1 send1).state._headers "Mime-Type"
        = some "application/json;charset=UTF-8" ∧
      ∀ pr,
        (Http.request (Http.request st now rtr req1 send1).state now2 rtr2 req2 send2).prepared
          = some pr →
        getHeader pr.headers "Content-Type"
          = some (if req1.mode = .PLAIN then "text/plain;charset=UTF-8"
                  else "application/json;charset=UTF-8") ∧
        getHeader pr.headers "Mime-Type" = some "application/json;charset=UTF-8" := by
  intro st now now2 rtr rtr2 req1 req2 send1 send2 p h0 hp1 hp2 h02
  have hH : (Http.request st now rtr req1 send1).state._headers
      = (Http._configure_payload st._headers req1).1 :=
    request_state_headers st now rtr req1 send1 h0
  have hcp : (Http._configure_payload st._headers req1).1
      = setHeader (setHeader st._headers "Content-Type"
          (if req1.mode = .PLAIN then "text/plain;charset=UTF-8"
            else "application/json;charset=UTF-8")) "Mime-Type"
          "application/json;charset=UTF-8" := by
    unfold Http._configure_payload
    rw [hp1]
    by_cases hm : req1.mode = .PLAIN
    · simp [hm]
    · simp [hm]
  have hct : getHeader (Http.request st now rtr req1 send1).state._headers "Content-Type"
      = some (if req1.mode = .PLAIN then "text/plain;charset=UTF-8"
              else "application/json;charset=UTF-8") := by
    rw [hH, hcp, getHeader_setHeader_other _ _ _ _ (by decide), getHeader_setHeader_same]
  have hmt : getHeader (Http.request st now rtr req1 send1).state._headers "Mime-Type"
      = some "application/json;charset=UTF-8" := by
    rw [hH, hcp, getHeader_setHeader_same]
  refine ⟨hct, hmt, ?_⟩
  intro pr hpr
  have hprh : pr.headers
      = (Http._configure_payload (Http.request st now rtr req1 send1).state._headers req2).1 :=
    request_prepared_headers _ now2 rtr2 req2 send2 pr h02 hpr
  have hcp2 : (Http._configure_payload
      (Http.request st now rtr req1 send1).state._headers req2).1
      = (Http.request st now rtr req1 send1).state._headers := by
    unfold Http._configure_payload
    rw [hp2]
  rw [hprh, hcp2]
  exact ⟨hct, hmt⟩

/-- Witness for claim C10: a payload call against a fresh client followed
by a payload-less call; the headers written by the first call are in the
session state and on the prepared request of the second call. -/
theorem claim_C10_witness :
    getHeader (Http.request (Http.initialState 0) 0 (.resp ⟨200, none, "OK"⟩)
        { domain := .ME, payload := some (.obj []) }
        (fun _ => .ok ⟨200, none, "OK"⟩)).state._headers "Content-Type"
      = some "application/json;charset=UTF-8" ∧
    getHeader (Http.request (Http.initialState 0) 0 (.resp ⟨200, none, "OK"⟩)
        { domain := .ME, payload := some (.obj []) }
        (fun _ => .ok ⟨200, none, "OK"⟩)).state._headers "Mime-Type"
      = some "application/json;charset=UTF-8" ∧
    getHeader (PreparedRequest.headers ⟨"GET", "https://my.tado.com/api/v2/me",
        [("Referer", "https://app.tado.com/"),
          ("Content-Type", "application/json;charset=UTF-8"),
          ("Mime-Type", "application/json;charset=UTF-8")], none⟩) "Content-Type"
      = some "application/json;charset=UTF-8" ∧
    getHeader (PreparedRequest.headers ⟨"GET", "https://my.tado.com/api/v2/me",
        [("Referer", "https://app.tado.com/"),
          ("Content-Type", "application/json;charset=UTF-8"),
          ("Mime-Type", "application/json;charset=UTF-8")], none⟩) "Mime-Type"
      = some "application/json;charset=UTF-8" := by
  have h := claim_C10 (Http.initialState 0) 0 0 (.resp ⟨200, none, "OK"⟩)
      (.resp ⟨200, none, "OK"⟩) { domain := .ME, payload := some (.obj []) } { domain := .ME }
      (fun _ => .ok ⟨200, none, "OK"⟩) (fun _ => .ok ⟨200, none, "OK"⟩) (.obj [])
      (by decide) rfl rfl
      (by rw [request_refresh_at _ _ _ _ _ (by decide)]; decide)
  have h3 := h.2.2 ⟨"GET", "https://my.tado.com/api/v2/me",
      [("Referer", "https://app.tado.com/"),
        ("Content-Type", "application/json;charset=UTF-8"),
        ("Mime-Type", "application/json;charset=UTF-8")], none⟩ rfl
  exact ⟨h.1, h.2.1, h3.1, h3.2⟩

/-- Counterexample to claim C4: a constructor run with a saved refresh
token whose forced refresh fails without raising (HTTP 401).  The flow
transport would answer a valid device-authorization response, yet the
constructor returns normally with the activation status still
`NOT_STARTED` and no user code or verification URL: the device flow was
not begun, contradicting the claimed fallback to a `PENDING` state. -/
theorem claim_C4_counterexample :
    (Http.init 0 (some "savedtoken") none
        (.resp ⟨401, some (.obj []), "Unauthorized"⟩)
        (.resp ⟨200, some (.obj [("device_code", .str "dc"), ("user_code", .str "uc"),
          ("verification_uri", .str "https://login.tado.com/oauth2/device"),
          ("expires_in", .num 300), ("interval", .num 5)]), "OK"⟩)
        (.ok (.obj [("homes", .arr [.obj [("id", .num 1234)]])])) (.ok (.obj []))).1
      = .ok () ∧
    (Http.init 0 (some "savedtoken") none
        (.resp ⟨401, some (.obj []), "Unauthorized"⟩)
        (.resp ⟨200, some (.obj [("device_code", .str "dc"), ("user_code", .str "uc"),
          ("verification_uri", .str "https://login.tado.com/oauth2/device"),
          ("expires_in", .num 300), ("interval", .num 5)]), "OK"⟩)
        (.ok (.obj [("homes", .arr [.obj [("id", .num 1234)]])])) (.ok (.obj []))).2._device_activation_status
      = .NOT_STARTED ∧
    (Http.init 0 (some "savedtoken") none
        (.resp ⟨401, some (.obj []), "Unauthorized"⟩)
        (.resp ⟨200, some (.obj [("device_code", .str "dc"), ("user_code", .str "uc"),
          ("verification_uri", .str "https://login.tado.com/oauth2/device"),
          ("expires_in", .num 300), ("interval", .num 5)]), "OK"⟩)
        (.ok (.obj [("homes", .arr [.obj [("id", .num 1234)]])])) (.ok (.obj []))).2._device_activation_status
      ≠ .PENDING ∧
    (Http.init 0 (some "savedtoken") none
        (.resp ⟨401, some (.obj []), "Unauthorized"⟩)
        (.resp ⟨200, some (.obj [("device_code", .str "dc"), ("user_code", .str "uc"),
          ("verification_uri", .str "https://login.tado.com/oauth2/device"),
          ("expires_in", .num 300), ("interval", .num 5)]), "OK"⟩)
        (.ok (.obj [("homes", .arr [.obj [("id", .num 1234)]])])) (.ok (.obj []))).2._user_code
      = none ∧
    (Http.init 0 (some "savedtoken") none
        (.resp ⟨401, some (.obj []), "Unauthorized"⟩)
        (.resp ⟨200, some (.obj [("device_code", .str "dc"), ("user_code", .str "uc"),
          ("verification_uri", .str "https://login.tado.com/oauth2/device"),
          ("expires_in", .num 300), ("interval", .num 5)]), "OK"⟩)
        (.ok (.obj [("homes", .arr [.obj [("id", .num 1234)]])])) (.ok (.obj []))).2._device_verification_url
      = none := by
  refine ⟨rfl, rfl, ?_, rfl, rfl⟩
  intro h
  exact DeviceActivationStatus.noConfusion (rfl.trans h :
    DeviceActivationStatus.NOT_STARTED = DeviceActivationStatus.PENDING)

/-- A forced refresh against a non-200 token-endpoint response returns
failure without raising, for any starting state. -/
theorem refresh_forced_non200 (st : HttpState) (now : Int) (rt : Option String)
    (r : HttpResponse) (h200 : r.statusCode ≠ 200) :
    Http._refresh_token st now rt true (.resp r)
      = (.ok false, Http.recreateSession st) := by
  have hcond : ¬ (now ≤ st._refresh_at ∧ (true : Bool) = false) := by
    rintro ⟨-, hf⟩
    cases hf
  unfold Http._refresh_token
  rw [if_neg hcond]
  simp [h200]

/-- Claim C4, amended: when a saved refresh token is supplied, or one is
loaded from the token file, and the forced refresh fails without raising
(non-200), the constructor does NOT fall back to the device flow: it
returns normally with the activation status left at `NOT_STARTED`, no
user code and no verification URL, and the state otherwise equal to the
freshly initialised (respectively, token-file loaded) one whose session
was recreated once by the refresh attempt.  The device flow is begun by
the constructor only when no saved or loaded token exists. -/
theorem claim_C4_amended :
    (∀ (now : Int) (saved : Option String) (tokenFile : Option Json) (r : HttpResponse)
       (ft : TransportResult) (me home : Except PyErr Json),
      savedTokenTruthy saved = true →
      r.statusCode ≠ 200 →
      Http.init now saved tokenFile (.resp r) ft me home
        = (.ok (), Http.recreateSession (Http.initialState now)) ∧
      (Http.init now saved tokenFile (.resp r) ft me home).2._device_activation_status
        = .NOT_STARTED ∧
      (Http.init now saved tokenFile (.resp r) ft me home).2._user_code = none ∧
      (Http.init now saved tokenFile (.resp r) ft me home).2._device_verification_url = none) ∧
    (∀ (now : Int) (saved : Option String) (data : Json) (r : HttpResponse)
       (ft : TransportResult) (me home : Except PyErr Json),
      savedTokenTruthy saved = false →
      r.statusCode ≠ 200 →
      Http.init now saved (some data) (.resp r) ft me home
        = (.ok (), Http.recreateSession
            { Http.initialState now with
                _token_refresh :=
                  match data.lookup "refresh_token" with
                  | some (.str s) => some s
                  | _ => none }) ∧
      (Http.init now saved (some data) (.resp r) ft me home).2._device_activation_status
        = .NOT_STARTED ∧
      (Http.init now saved (some data) (.resp r) ft me home).2._user_code = none ∧
      (Http.init now saved (some data) (.resp r) ft me home).2._device_verification_url
        = none) ∧
    (∀ (now : Int) (rt ft : TransportResult) (me home : Except PyErr Json),
      Http.init now none none rt ft me home
        = Http.beginDeviceFlow (Http.initialState now) now ft) := by
  refine ⟨?_, ?_, ?_⟩
  · intro now saved tokenFile r ft me home hsaved h200
    have hmain : Http.init now saved tokenFile (.resp r) ft me home
        = (.ok (), Http.recreateSession (Http.initialState now)) := by
      unfold Http.init
      rw [hsaved]
      simp only [if_pos]
      rw [refresh_forced_non200 (Http.initialState now) now saved r h200]
    refine ⟨hmain, ?_, ?_, ?_⟩ <;> rw [hmain] <;> rfl
  · intro now saved data r ft me home hsaved h200
    have hmain : Http.init now saved (some data) (.resp r) ft me home
        = (.ok (), Http.recreateSession
            { Http.initialState now with
                _token_refresh :=
                  match data.lookup "refresh_token" with
                  | some (.str s) => some s
                  | _ => none }) := by
      unfold Http.init
      rw [hsaved]
      simp only [Bool.false_eq_true, if_false]
      rw [refresh_forced_non200 _ now saved r h200, if_pos trivial]
    refine ⟨hmain, ?_, ?_, ?_⟩ <;> rw [hmain] <;> rfl
  · intro now rt ft me home
    rfl

/-- Witness for the amended claim C4: once with a saved token whose
forced refresh answers 401, once with a token file holding a refresh
token and the same failing refresh. -/
theorem claim_C4_amended_witness :
    Http.init 0 (some "savedtoken") none (.resp ⟨401, some (.obj []), "Unauthorized"⟩)
        (.connError "unused") (.ok (.obj [])) (.ok (.obj []))
      = (.ok (), Http.recreateSession (Http.initialState 0)) ∧
    (Http.init 0 (some "savedtoken") none (.resp ⟨401, some (.obj []), "Unauthorized"⟩)
        (.connError "unused") (.ok (.obj [])) (.ok (.obj []))).2._device_activation_status
      = .NOT_STARTED ∧
    Http.init 0 none (some (.obj [("refresh_token", .str "filetok")]))
        (.resp ⟨401, some (.obj []), "Unauthorized"⟩)
        (.connError "unused") (.ok (.obj [])) (.ok (.obj []))
      = (.ok (), Http.recreateSession
          { Http.initialState 0 with _token_refresh := some "filetok" }) ∧
    (Http.init 0 none (some (.obj [("refresh_token", .str "filetok")]))
        (.resp ⟨401, some (.obj []), "Unauthorized"⟩)
        (.connError "unused") (.ok (.obj [])) (.ok (.obj []))).2._device_activation_status
      = .NOT_STARTED :=
  ⟨(claim_C4_amended.1 0 (some "savedtoken") none ⟨401, some (.obj []), "Unauthorized"⟩
      (.connError "unused") (.ok (.obj [])) (.ok (.obj [])) (by decide) (by decide)).1,
   (claim_C4_amended.1 0 (some "savedtoken") none ⟨401, some (.obj []), "Unauthorized"⟩
      (.connError "unused") (.ok (.obj [])) (.ok (.obj [])) (by decide) (by decide)).2.1,
   (claim_C4_amended.2.1 0 none (.obj [("refresh_token", .str "filetok")])
      ⟨401, some (.obj []), "Unauthorized"⟩
      (.connError "unused") (.ok (.obj [])) (.ok (.obj [])) rfl (by decide)).1,
   (claim_C4_amended.2.1 0 none (.obj [("refresh_token", .str "filetok")])
      ⟨401, some (.obj []), "Unauthorized"⟩
      (.connError "unused") (.ok (.obj [])) (.ok (.obj [])) rfl (by decide)).2.1⟩

/-- A client state in the middle of the device flow: status `PENDING`,
flow data stored, user code valid until instant 300. -/
def c6PollState : HttpState :=
  { Http.initialState 0 with
      _device_activation_status := .PENDING
      _device_flow_data := some ⟨"dc", "uc", "https://login.tado.com/oauth2/device", 300, 5⟩
      _expires_at := some 300 }

/-- Counterexample to claim C6: for a fatal poll response (HTTP 500,
reason "Internal Server Error") the raised error message wraps only the
reason; the status code does not occur in it, so the error does not wrap
"the status and reason" as claimed. -/
theorem claim_C6_counterexample :
    (Http._check_device_activation c6PollState 10
        (.resp ⟨500, some (.obj []), "Internal Server Error"⟩)).result
      = .error (.tadoException "Login failed. Reason: Internal Server Error") ∧
    strContainsSub "Login failed. Reason: Internal Server Error" "500" = false :=
  ⟨rfl, rfl⟩

/-- Claim C6, amended: a poll past `code_expires_at` raises "user took
too long" without sleeping or touching the network; otherwise the step
sleeps `interval` seconds and polls, where HTTP 200 stores the tokens via
the common setter and reports activated, HTTP 400 with body error
`authorization_pending` reports not-yet, and any other response (non-200
non-400 status, or 400 with a different error value) fails fatally with a
`TadoException` whose message wraps the response reason only — the status
code is not part of the error. -/
theorem claim_C6_amended :
    (∀ (st : HttpState) (now : Int) (tr : TransportResult) (e : Int),
      st._expires_at = some e → e < now →
      Http._check_device_activation st now tr
        = ⟨.error (.tadoException "User took too long to enter key"), st, false, none⟩) ∧
    (∀ (st : HttpState) (now : Int) (r : HttpResponse) (b : Json) (d : OAuthData)
       (dfd : DeviceFlowData),
      deviceCodeExpired st now = false →
      st._device_flow_data = some dfd →
      r.statusCode = 200 → r.body = some b → parseOAuth b = some d →
      Http._check_device_activation st now (.resp r)
        = ⟨.ok true, Http._set_oauth_header st now d, true, some dfd.interval⟩) ∧
    (∀ (st : HttpState) (now : Int) (r : HttpResponse) (b : Json) (v : Json)
       (dfd : DeviceFlowData),
      deviceCodeExpired st now = false →
      st._device_flow_data = some dfd →
      r.statusCode = 400 → r.body = some b →
      b.lookup "error" = some v → jsonEqStr v "authorization_pending" = true →
      Http._check_device_activation st now (.resp r)
        = ⟨.ok false, st, true, some dfd.interval⟩) ∧
    (∀ (st : HttpState) (now : Int) (r : HttpResponse) (dfd : DeviceFlowData),
      deviceCodeExpired st now = false →
      st._device_flow_data = some dfd →
      r.statusCode ≠ 200 → r.statusCode ≠ 400 →
      Http._check_device_activation st now (.resp r)
        = ⟨.error (.tadoException ("Login failed. Reason: " ++ r.reason)), st, true,
            some dfd.interval⟩) ∧
    (∀ (st : HttpState) (now : Int) (r : HttpResponse) (b : Json) (v : Json)
       (dfd : DeviceFlowData),
      deviceCodeExpired st now = false →
      st._device_flow_data = some dfd →
      r.statusCode = 400 → r.body = some b →
      b.lookup "error" = some v → jsonEqStr v "authorization_pending" = false →
      Http._check_device_activation st now (.resp r)
        = ⟨.error (.tadoException ("Login failed. Reason: " ++ r.reason)), st, true,
            some dfd.interval⟩) := by
  refine ⟨?_, ?_, ?_, ?_, ?_⟩
  · intro st now tr e he hlt
    have hx : deviceCodeExpired st now = true := by
      unfold deviceCodeExpired
      rw [he]
      simp
      omega
    unfold Http._check_device_activation
    rw [if_pos hx]
  · intro st now r b d dfd hexp hdfd h200 hbody hparse
    unfold Http._check_device_activation
    rw [if_neg (by rw [hexp]; exact Bool.false_ne_true), hdfd]
    simp [h200, hbody, hparse]
  · intro st now r b v dfd hexp hdfd h400 hbody hlook hpend
    unfold Http._check_device_activation
    rw [if_neg (by rw [hexp]; exact Bool.false_ne_true), hdfd]
    simp [h400, hbody, hlook, hpend]
  · intro st now r dfd hexp hdfd h200 h400
    unfold Http._check_device_activation
    rw [if_neg (by rw [hexp]; exact Bool.false_ne_true), hdfd]
    simp [h200, h400]
  · intro st now r b v dfd hexp hdfd h400 hbody hlook hpend
    unfold Http._check_device_activation
    rw [if_neg (by rw [hexp]; exact Bool.false_ne_true), hdfd]
    simp [h400, hbody, hlook, hpend]

/-- Witness for the amended claim C6 at concrete polls. -/
theorem claim_C6_amended_witness :
    Http._check_device_activation c6PollState 301 (.connError "unused")
      = ⟨.error (.tadoException "User took too long to enter key"), c6PollState, false, none⟩ ∧
    Http._check_device_activation c6PollState 10
        (.resp ⟨200, some (.obj [("access_token", .str "at"), ("expires_in", .num 600),
          ("refresh_token", .str "rt2")]), "OK"⟩)
      = ⟨.ok true, Http._set_oauth_header c6PollState 10 ⟨"at", 600, "rt2"⟩, true, some 5⟩ ∧
    Http._check_device_activation c6PollState 10
        (.resp ⟨400, some (.obj [("error", .str "authorization_pending")]), "Bad Request"⟩)
      = ⟨.ok false, c6PollState, true, some 5⟩ ∧
    Http._check_device_activation c6PollState 10
        (.resp ⟨500, some (.obj []), "Internal Server Error"⟩)
      = ⟨.error (.tadoException ("Login failed. Reason: " ++ "Internal Server Error")),
          c6PollState, true, some 5⟩ ∧
    Http._check_device_activation c6PollState 10
        (.resp ⟨400, some (.obj [("error", .str "expired_token")]), "Bad Request"⟩)
      = ⟨.error (.tadoException ("Login failed. Reason: " ++ "Bad Request")),
          c6PollState, true, some 5⟩ :=
  ⟨claim_C6_amended.1 c6PollState 301 (.connError "unused") 300 rfl (by omega),
   claim_C6_amended.2.1 c6PollState 10
     ⟨200, some (.obj [("access_token", .str "at"), ("expires_in", .num 600),
       ("refresh_token", .str "rt2")]), "OK"⟩
     (.obj [("access_token", .str "at"), ("expires_in", .num 600),
       ("refresh_token", .str "rt2")]) ⟨"at", 600, "rt2"⟩
     ⟨"dc", "uc", "https://login.tado.com/oauth2/device", 300, 5⟩
     rfl rfl rfl rfl rfl,
   claim_C6_amended.2.2.1 c6PollState 10
     ⟨400, some (.obj [("error", .str "authorization_pending")]), "Bad Request"⟩
     (.obj [("error", .str "authorization_pending")]) (.str "authorization_pending")
     ⟨"dc", "uc", "https://login.tado.com/oauth2/device", 300, 5⟩
     rfl rfl rfl rfl rfl rfl,
   claim_C6_amended.2.2.2.1 c6PollState 10
     ⟨500, some (.obj []), "Internal Server Error"⟩
     ⟨"dc", "uc", "https://login.tado.com/oauth2/device", 300, 5⟩
     rfl rfl (by decide) (by decide),
   claim_C6_amended.2.2.2.2 c6PollState 10
     ⟨400, some (.obj [("error", .str "expired_token")]), "Bad Request"⟩
     (.obj [("error", .str "expired_token")]) (.str "expired_token")
     ⟨"dc", "uc", "https://login.tado.com/oauth2/device", 300, 5⟩
     rfl rfl rfl rfl rfl rfl⟩

/-- Every status ranks at most at `COMPLETED`. -/
theorem rank_le_two (s : DeviceActivationStatus) : s.rank ≤ 2 := by
  cases s <;> simp [DeviceActivationStatus.rank]

/-- The only status of rank at least 2 is `COMPLETED`. -/
theorem rank_two_completed (s : DeviceActivationStatus) (h : 2 ≤ s.rank) :
    s = .COMPLETED := by
  cases s <;> simp_all [DeviceActivationStatus.rank]

/-- One poll step never changes the activation status. -/
theorem check_preserves_status (st : HttpState) (now : Int) (tr : TransportResult) :
    (Http._check_device_activation st now tr).state._device_activation_status
      = st._device_activation_status := by
  unfold Http._check_device_activation
  repeat' split
  all_goals rfl

/-- A token refresh never changes the activation status. -/
theorem refresh_preserves_status (st : HttpState) (now : Int) (rt : Option String)
    (force : Bool) (tr : TransportResult) :
    (Http._refresh_token st now rt force tr).2._device_activation_status
      = st._device_activation_status := by
  unfold Http._refresh_token
  repeat' split
  all_goals rfl

/-- A `request` call never changes the activation status. -/
theorem request_preserves_status (st : HttpState) (now : Int) (rtr : TransportResult)
    (req : TadoRequest) (send : Nat → SendOutcome) :
    (Http.request st now rtr req send).state._device_activation_status
      = st._device_activation_status := by
  unfold Http.request
  rcases hr : Http._refresh_token st now none false rtr with ⟨res, st1⟩
  have h1 : st1._device_activation_status = st._device_activation_status := by
    have := refresh_preserves_status st now none false rtr
    rw [hr] at this
    exact this
  cases res with
  | error e => simpa using h1
  | ok b =>
    simp only
    cases hu : Http._configure_url { st1 with _headers := (Http._configure_payload st1._headers req).1 } req with
    | error e => simpa [hu] using h1
    | ok u =>
      simp only [hu]
      rcases hl : Http.sendLoop send
          { st1 with _headers := (Http._configure_payload st1._headers req).1 }
          _DEFAULT_RETRIES 0 with ⟨res2, st3, attempts⟩
      have h3 := sendLoop_status send
          { st1 with _headers := (Http._configure_payload st1._headers req).1 }
          _DEFAULT_RETRIES 0
      rw [hl] at h3
      simp only at h3
      cases res2 <;> simp [hl] <;> rw [h3] <;> exact h1

/-- The device-activation poll loop never changes the activation status. -/
theorem loop_preserves_status (polls : List (Int × TransportResult)) (st : HttpState) :
    (Http.deviceActivationLoop st polls).state._device_activation_status
      = st._device_activation_status := by
  induction polls generalizing st with
  | nil => rfl
  | cons hd rest ih =>
    rcases hd with ⟨now, tr⟩
    simp only [Http.deviceActivationLoop]
    have hc := check_preserves_status st now tr
    cases hres : (Http._check_device_activation st now tr).result with
    | error e => simpa [ActRes.state] using hc
    | ok b =>
      cases b
      · rw [ih]
        exact hc
      · simpa [ActRes.state] using hc

/-- The post-activation follow-up either completes the activation or
leaves the status untouched (when one of its requests raises). -/
theorem device_ready_status (st : HttpState) (me home : Except PyErr Json) :
    (Http._device_ready st me home).2._device_activation_status = .COMPLETED ∨
    (Http._device_ready st me home).2._device_activation_status
      = st._device_activation_status := by
  unfold Http._device_ready
  repeat' split
  all_goals simp

/-- Beginning the device flow twice raises. -/
theorem login_flow_already_started (st : HttpState) (now : Int) (tr : TransportResult)
    (h : st._device_activation_status ≠ .NOT_STARTED) :
    Http._login_device_flow st now tr
      = (.error (.tadoException "The device has been started already"), st) := by
  unfold Http._login_device_flow
  rw [if_pos h]

/-- Beginning the device flow never moves the activation status
backward. -/
theorem beginDeviceFlow_mono (st : HttpState) (now : Int) (tr : TransportResult) :
    st._device_activation_status.rank
      ≤ ((Http.beginDeviceFlow st now tr).2._device_activation_status).rank := by
  by_cases h : st._device_activation_status = .NOT_STARTED
  · rw [h]
    exact Nat.zero_le _
  · unfold Http.beginDeviceFlow
    rw [login_flow_already_started st now tr h]

/-- `device_activation` never moves the activation status backward. -/
theorem device_activation_mono (st : HttpState) (polls : List (Int × TransportResult))
    (me home : Except PyErr Json) :
    st._device_activation_status.rank
      ≤ ((Http.device_activation st polls me home).state._device_activation_status).rank := by
  unfold Http.device_activation
  by_cases h : st._device_activation_status = .NOT_STARTED
  · rw [if_pos h]
    exact Nat.le.refl
  · rw [if_neg h]
    rcases hl : Http.deviceActivationLoop st polls with st2 | ⟨e, st2⟩ | st2
    · have h2 : st2._device_activation_status = st._device_activation_status := by
        have hx := loop_preserves_status polls st
        rw [hl] at hx
        exact hx
      have hds := device_ready_status st2 me home
      rcases hd : Http._device_ready st2 me home with ⟨res, st3⟩
      rw [hd] at hds
      simp only at hds
      simp only
      rw [hd]
      cases res with
      | ok u =>
        simp only [ActRes.state]
        rcases hds with hc | hc
        · rw [hc]
          exact rank_le_two _
        · rw [hc, h2]
      | error e =>
        simp only [ActRes.state]
        rcases hds with hc | hc
        · rw [hc]
          exact rank_le_two _
        · rw [hc, h2]
    · have hx := loop_preserves_status polls st
      rw [hl] at hx
      simp only [ActRes.state] at hx
      simp only [ActRes.state]
      rw [hx]
    · have hx := loop_preserves_status polls st
      rw [hl] at hx
      simp only [ActRes.state] at hx
      simp only [ActRes.state]
      rw [hx]

/-- The follow-up step never moves the activation status backward. -/
theorem device_ready_mono (st : HttpState) (me home : Except PyErr Json) :
    st._device_activation_status.rank
      ≤ ((Http._device_ready st me home).2._device_activation_status).rank := by
  rcases device_ready_status st me home with hc | hc
  · rw [hc]
    exact rank_le_two _
  · rw [hc]

/-- `COMPLETED` is preserved by `beginDeviceFlow`. -/
theorem beginDeviceFlow_terminal (st : HttpState) (now : Int) (tr : TransportResult)
    (h : st._device_activation_status = .COMPLETED) :
    (Http.beginDeviceFlow st now tr).2._device_activation_status = .COMPLETED := by
  apply rank_two_completed
  have hm := beginDeviceFlow_mono st now tr
  rw [h] at hm
  exact hm

/-- `COMPLETED` is preserved by `device_activation`. -/
theorem device_activation_terminal (st : HttpState) (polls : List (Int × TransportResult))
    (me home : Except PyErr Json) (h : st._device_activation_status = .COMPLETED) :
    (Http.device_activation st polls me home).state._device_activation_status
      = .COMPLETED := by
  apply rank_two_completed
  have hm := device_activation_mono st polls me home
  rw [h] at hm
  exact hm

/-- Claim C5: the activation status only moves forward along
`NOT_STARTED → PENDING → COMPLETED`; beginning the device flow twice
raises a `TadoException` "The device has been started already",
activating while `NOT_STARTED` raises, no modelled operation moves the
status backward, and `COMPLETED` is terminal for the life of the
instance. -/
theorem claim_C5 :
    (∀ (st : HttpState) (now : Int) (tr : TransportResult),
      st._device_activation_status ≠ .NOT_STARTED →
      Http._login_device_flow st now tr
        = (.error (.tadoException "The device has been started already"), st)) ∧
    (∀ (st : HttpState) (polls : List (Int × TransportResult)) (me home : Except PyErr Json),
      st._device_activation_status = .NOT_STARTED →
      Http.device_activation st polls me home
        = .err (.tadoException "The device flow has not yet started") st) ∧
    (∀ (st : HttpState) (now : Int) (tr : TransportResult),
      st._device_activation_status.rank
        ≤ ((Http.beginDeviceFlow st now tr).2._device_activation_status).rank) ∧
    (∀ (st : HttpState) (polls : List (Int × TransportResult)) (me home : Except PyErr Json),
      st._device_activation_status.rank
        ≤ ((Http.device_activation st polls me home).state._device_activation_status).rank) ∧
    (∀ (st : HttpState) (me home : Except PyErr Json),
      st._device_activation_status.rank
        ≤ ((Http._device_ready st me home).2._device_activation_status).rank) ∧
    (∀ (st : HttpState) (now : Int) (tr : TransportResult),
      (Http._check_device_activation st now tr).state._device_activation_status
        = st._device_activation_status) ∧
    (∀ (st : HttpState) (now : Int) (rt : Option String) (force : Bool) (tr : TransportResult),
      (Http._refresh_token st now rt force tr).2._device_activation_status
        = st._device_activation_status) ∧
    (∀ (st : HttpState) (now : Int) (rtr : TransportResult) (req : TadoRequest)
       (send : Nat → SendOutcome),
      (Http.request st now rtr req send).state._device_activation_status
        = st._device_activation_status) ∧
    (∀ (st : HttpState) (now : Int) (tr : TransportResult),
      st._device_activation_status = .COMPLETED →
      (Http.beginDeviceFlow st now tr).2._device_activation_status = .COMPLETED) ∧
    (∀ (st : HttpState) (polls : List (Int × TransportResult)) (me home : Except PyErr Json),
      st._device_activation_status = .COMPLETED →
      (Http.device_activation st polls me home).state._device_activation_status
        = .COMPLETED) := by
  refine ⟨login_flow_already_started, ?_, beginDeviceFlow_mono, device_activation_mono,
    device_ready_mono, check_preserves_status, refresh_preserves_status,
    request_preserves_status, beginDeviceFlow_terminal, device_activation_terminal⟩
  intro st polls me home h
  unfold Http.device_activation
  rw [if_pos h]

/-- Witness for claim C5 at concrete states. -/
theorem claim_C5_witness :
    Http._login_device_flow
        { Http.initialState 0 with _device_activation_status := .PENDING } 0
        (.connError "unused")
      = (.error (.tadoException "The device has been started already"),
          { Http.initialState 0 with _device_activation_status := .PENDING }) ∧
    Http.device_activation (Http.initialState 0) [] (.ok (.obj [])) (.ok (.obj []))
      = .err (.tadoException "The device flow has not yet started") (Http.initialState 0) ∧
    (Http.beginDeviceFlow
        { Http.initialState 0 with _device_activation_status := .COMPLETED } 0
        (.connError "unused")).2._device_activation_status = .COMPLETED ∧
    (Http.device_activation
        { Http.initialState 0 with _device_activation_status := .COMPLETED } []
        (.ok (.obj [])) (.ok (.obj []))).state._device_activation_status = .COMPLETED :=
  ⟨claim_C5.1 { Http.initialState 0 with _device_activation_status := .PENDING } 0
      (.connError "unused") (by decide),
   claim_C5.2.1 (Http.initialState 0) [] (.ok (.obj [])) (.ok (.obj [])) rfl,
   claim_C5.2.2.2.2.2.2.2.2.1
      { Http.initialState 0 with _device_activation_status := .COMPLETED } 0
      (.connError "unused") rfl,
   claim_C5.2.2.2.2.2.2.2.2.2
      { Http.initialState 0 with _device_activation_status := .COMPLETED } []
      (.ok (.obj [])) (.ok (.obj [])) rfl⟩

end PyTado
